import Mathlib

/-!
Shallow embedding of the Nice-2-Meet-U match-composite service
(src/services/user_match_service.py and src/resources/user_match.py).

The service layer is orchestration glue over two upstream HTTP services
(a pools service and a matches service).  Upstream behaviour is modelled
as an environment of oracle functions: each oracle returns
`Option (Resp β)` where `none` models a transport-level failure
(a requests.RequestException whose `response` attribute is `None`,
e.g. ConnectionError or Timeout) and `some r` models a completed HTTP
exchange with status code `r.status` and parsed JSON body `r.body`.

Python/requests semantics that matter and are modelled explicitly:
  - `Response.raise_for_status()` raises `HTTPError` (a subclass of
    `RequestException`, with the response attached) exactly when
    `400 <= status_code < 600`;
  - `bool(response)` is `Response.ok`, which is `False` exactly when
    `400 <= status_code < 600`.  Hence a guard of the form
    `if hasattr(e, "response") and e.response and e.response.status_code == 404`
    can never be taken for an error raised by `raise_for_status`.
  - `str(x)` applied to `None` yields the string `"None"`.
  - randomness (`random.choice`, `random.sample`) is modelled by a
    deterministic selection driven by an arbitrary natural-number seed.

Coordinates (floats in the source) are opaque to this layer: they are
only forwarded verbatim.  They are modelled as `Option Int`.
-/

namespace UserMatch

/-- A completed HTTP exchange: status code plus parsed JSON body. -/
structure Resp (β : Type) where
  status : Nat
  body : β
deriving Repr, DecidableEq

/-- `Response.raise_for_status()` raises an HTTPError exactly when the
status code is in `[400, 600)`. -/
def status_error (s : Nat) : Bool := decide (400 ≤ s) && decide (s < 600)

/-- `bool(response)` in the requests library is `Response.ok`: it is
`false` exactly when `raise_for_status` would raise, i.e. when the
status code is in `[400, 600)`. -/
def response_truthy (s : Nat) : Bool := !(decide (400 ≤ s) && decide (s < 600))

/-- `str(x)` for an optional string: Python renders `None` as `"None"`. -/
def pyStr : Option String → String
  | none => "None"
  | some s => s

/-- The exception classes raised by the service layer, as discriminated
by the resource layer except-clauses. -/
inductive ServiceError where
  | valueError (msg : String)
  | runtimeError (msg : String)
  | permissionError (msg : String)
  | exception (msg : String)
deriving Repr, DecidableEq

/-! ## Bodies returned by the pools service -/

/-- An item of `GET /pools/members?user_id=` (the membership lookup).
`pool_id` is read with `.get` in the source, hence optional; `user_id`
and `joined_at` are read with mandatory indexing. -/
structure MemberRec where
  pool_id : Option String
  user_id : String
  joined_at : String
deriving Repr, DecidableEq

/-- Body of `GET /pools/{pool_id}`: `id` and `name` are read with
mandatory indexing, `location` and `member_count` with `.get`. -/
structure PoolDetails where
  id : String
  name : String
  location : Option String
  member_count : Option Int
deriving Repr, DecidableEq

/-- An item of `GET /pools/?location=`: only `id` (mandatory) and
`member_count` (read via `.get("member_count", 0)`) are used. -/
structure PoolObj where
  id : String
  member_count : Option Int
deriving Repr, DecidableEq

/-- Body of `GET /pools/?location=`: the source checks
`isinstance(pools, list)` and rejects any non-list payload. -/
inductive PoolsListBody where
  | arr (pools : List PoolObj)
  | nonList
deriving Repr, DecidableEq

/-- Body of `POST /pools/`: the source checks `isinstance(pool, dict)`
and rejects any non-dict payload. -/
inductive PoolCreateBody where
  | obj (pool : PoolObj)
  | nonDict
deriving Repr, DecidableEq

/-- Payload of `POST /pools/{pool_id}/members` as built by the source:
`user_id` always, coordinates only when provided. -/
structure MemberPayload where
  user_id : String
  coord_x : Option Int
  coord_y : Option Int
deriving Repr, DecidableEq

/-- Body of `POST /pools/{pool_id}/members` (opaque to this layer,
returned verbatim as the `member` field). -/
structure MemberObj where
  user_id : Option String
  joined_at : Option String
deriving Repr, DecidableEq

/-- An item of `GET /pools/{pool_id}/members`: the source only reads
`user_id`, via `.get`. -/
structure PoolMemberRec where
  user_id : Option String
deriving Repr, DecidableEq

/-- Body of `DELETE /pools/members/{user_id}` (opaque, returned verbatim). -/
structure DeleteBody where
  detail : Option String
deriving Repr, DecidableEq

/-- Upstream pools service, as an oracle environment.  `none` models a
transport failure (RequestException with `response = None`). -/
structure PoolsEnv where
  listMembersByUser : String → Option (Resp (List MemberRec))
  getPool : String → Option (Resp PoolDetails)
  listPoolsByLocation : String → Option (Resp PoolsListBody)
  createPool : String → String → Option (Resp PoolCreateBody)
  addMember : String → MemberPayload → Option (Resp MemberObj)
  getPoolMembers : String → Option (Resp (List PoolMemberRec))
  deleteMember : String → Option (Resp DeleteBody)

/-! ## Bodies returned by the matches service -/

/-- An item of `GET /matches/?user_id=`: the source only reads
`match_id`, via `.get`. -/
structure MatchListItem where
  match_id : Option String
deriving Repr, DecidableEq

/-- Payload of `POST /matches/` as built by the source. -/
structure MatchPayload where
  pool_id : String
  user1_id : String
  user2_id : String
deriving Repr, DecidableEq

/-- Keyword set of a raw match object, before validation: every field
of the canonical shape may be absent. -/
structure RawMatch where
  match_id : Option String
  pool_id : Option String
  user1_id : Option String
  user2_id : Option String
  status : Option String
  created_at : Option String
  updated_at : Option String
deriving Repr, DecidableEq

/-- Body of `POST /matches/`: the source defensively handles the case
where the parsed JSON is a list instead of an object. -/
inductive RawResp where
  | obj (m : RawMatch)
  | arr (l : List RawResp)

/-- Modelled from the spec: the class MatchGet of models/match.py is not
under src/.  Per the spec (sections 3 and 4.4), every successfully
created match record is validated/normalized into the canonical Match
shape \x7bmatch_id, pool_id, user1_id, user2_id, status, created_at,
updated_at\x7d before being returned. -/
structure MatchGet where
  match_id : String
  pool_id : String
  user1_id : String
  user2_id : String
  status : String
  created_at : String
  updated_at : String
deriving Repr, DecidableEq

/-- Body of `GET /matches/{match_id}/decisions/{user_id}` and of
`POST /matches/{match_id}/decisions` (returned verbatim). -/
structure DecisionBody where
  match_id : Option String
  user_id : Option String
  decision : Option String
  decided_at : Option String
deriving Repr, DecidableEq

/-- Payload of `POST /matches/{match_id}/decisions` as built by the source. -/
structure DecisionPayload where
  match_id : String
  user_id : String
  decision : String
deriving Repr, DecidableEq

/-- Upstream matches service, as an oracle environment. -/
structure MatchesEnv where
  listMatches : String → Option (Resp (List MatchListItem))
  createMatch : MatchPayload → Option (Resp RawResp)
  getDecision : String → String → Option (Resp DecisionBody)
  postDecision : DecisionPayload → Option (Resp DecisionBody)

/-! ## Service functions -/

/-- The merged record built by `get_user_pool_from_service`. -/
structure UserPoolRead where
  pool_id : String
  pool_name : String
  location : Option String
  member_count : Option Int
  joined_at : String
  user_id : String
deriving Repr, DecidableEq

/-- `get_user_pool_from_service` (user_match_service.py lines 19-62):
membership lookup, then pool details, then the merged record.
An empty membership list raises ValueError; any RequestException is
translated to RuntimeError. -/
def get_user_pool_from_service (env : PoolsEnv) (user_id : String) :
    Except ServiceError UserPoolRead :=
  match env.listMembersByUser user_id with
  | none => .error (.runtimeError "Service communication error")
  | some mr =>
    if status_error mr.status then
      .error (.runtimeError "Service communication error")
    else
      match mr.body with
      | [] => .error (.valueError "User is not a member of any pool")
      | user_member :: _ =>
        match env.getPool (pyStr user_member.pool_id) with
        | none => .error (.runtimeError "Service communication error")
        | some pr =>
          if status_error pr.status then
            .error (.runtimeError "Service communication error")
          else
            .ok { pool_id := pr.body.id
                , pool_name := pr.body.name
                , location := pr.body.location
                , member_count := pr.body.member_count
                , joined_at := user_member.joined_at
                , user_id := user_member.user_id }

/-- Resource-layer status mapping of `GET /users/{user_id}/pool`
(user_match.py lines 40-60): ValueError to 404, RuntimeError to 502,
any other exception to 500. -/
def http_status_get_user_pool (r : Except ServiceError UserPoolRead) : Nat :=
  match r with
  | .ok _ => 200
  | .error (.valueError _) => 404
  | .error (.runtimeError _) => 502
  | .error _ => 500

/-- The capacity filter of `add_user_to_pool_service` (line 92):
`p.get("member_count", 0) < max_pool_size`. -/
def pool_eligible (max_pool_size : Int) (p : PoolObj) : Bool :=
  decide (p.member_count.getD 0 < max_pool_size)

/-- Fallback pool object for the (guarded, unreachable) out-of-range
index of the modelled `random.choice`. -/
def DEFAULT_POOL : PoolObj := { id := "", member_count := none }

/-- `random.choice(pools)` modelled deterministically: select index
`seed % pools.length`.  Uniform choice corresponds to a uniformly
distributed seed. -/
def random_choice (seed : Nat) (pools : List PoolObj) : PoolObj :=
  pools.getD (seed % pools.length) DEFAULT_POOL

/-- Ghost record of which branch selected the target pool: `created`
when the no-eligible-pool branch issued `POST /pools/`, `picked` when
an existing eligible pool was chosen at random. -/
inductive PoolSource where
  | created (p : PoolObj)
  | picked (p : PoolObj)
deriving Repr, DecidableEq

/-- Result dict of `add_user_to_pool_service`. -/
structure AddUserResult where
  user_id : String
  pool_id : String
  location : String
  member : MemberObj
deriving Repr, DecidableEq

/-- `add_user_to_pool_service` (user_match_service.py lines 65-140):
list pools at the location, keep only those passing the capacity
filter, create a new pool named from the location when none remain,
otherwise pick one at random; then add the user as a member.
The returned `PoolSource` is a ghost field recording which branch
chose the pool; the Python result dict is the first component. -/
def add_user_to_pool_service (env : PoolsEnv) (user_id location : String)
    (coord_x coord_y : Option Int) (seed : Nat) (max_pool_size : Int) :
    Except ServiceError (AddUserResult × PoolSource) :=
  match env.listPoolsByLocation location with
  | none => .error (.runtimeError "Service communication error")
  | some pr =>
    if status_error pr.status then
      .error (.runtimeError "Service communication error")
    else
      match pr.body with
      | .nonList => .error (.runtimeError "Unexpected response format from pools service")
      | .arr rawPools =>
        let pools := rawPools.filter (pool_eligible max_pool_size)
        let sel : Except ServiceError PoolSource :=
          if pools.isEmpty then
            match env.createPool ("Pool for " ++ location) location with
            | none => .error (.runtimeError "Service communication error")
            | some cr =>
              if status_error cr.status then
                .error (.runtimeError "Service communication error")
              else
                match cr.body with
                | .nonDict => .error (.runtimeError "Unexpected pool response format")
                | .obj p => .ok (.created p)
          else
            .ok (.picked (random_choice seed pools))
        match sel with
        | .error e => .error e
        | .ok src =>
          let pool := match src with
            | .created p => p
            | .picked p => p
          match env.addMember pool.id { user_id := user_id, coord_x := coord_x, coord_y := coord_y } with
          | none => .error (.runtimeError "Service communication error")
          | some mres =>
            if status_error mres.status then
              .error (.runtimeError "Service communication error")
            else
              .ok ({ user_id := user_id
                   , pool_id := pool.id
                   , location := location
                   , member := mres.body }, src)

/-- Resource-layer status mapping of `POST /users/{user_id}/pool`
(user_match.py lines 63-87): RuntimeError to 502, ValueError to 400,
any other exception to 500; success is 201. -/
def http_status_add_user_to_pool (r : Except ServiceError (AddUserResult × PoolSource)) : Nat :=
  match r with
  | .ok _ => 201
  | .error (.runtimeError _) => 502
  | .error (.valueError _) => 400
  | .error _ => 500

/-- `get_user_matches_from_service` (user_match_service.py lines 143-161):
lists matches for the user; the except-clause intends to turn an
upstream 404 into `[]`, but its guard tests `e.response` for truthiness,
which is false for every 4xx/5xx response, so the `[]` branch is dead. -/
def get_user_matches_from_service (env : MatchesEnv) (user_id : String) :
    Except ServiceError (List MatchListItem) :=
  match env.listMatches user_id with
  | none => .error (.runtimeError "Service communication error")
  | some r =>
    if status_error r.status then
      if response_truthy r.status && r.status == 404 then
        .ok []
      else
        .error (.runtimeError "Service communication error")
    else
      .ok r.body

/-- Resource-layer status mapping of `GET /users/{user_id}/matches`
(user_match.py lines 114-136): RuntimeError to 502, any other
exception to 500. -/
def http_status_get_user_matches (r : Except ServiceError (List MatchListItem)) : Nat :=
  match r with
  | .ok _ => 200
  | .error (.runtimeError _) => 502
  | .error _ => 500

/-- Fallback member for the (guarded, unreachable) out-of-range index
of the modelled `random.sample`. -/
def DEFAULT_MEMBER : PoolMemberRec := { user_id := none }

/-- `random.sample(l, k)` modelled deterministically: repeatedly pick
the element at index `seed % length` and recurse on the list with that
position removed, so the sample is drawn without replacement.  Uniform
sampling corresponds to a uniformly distributed seed. -/
def random_sample : Nat → List PoolMemberRec → Nat → List PoolMemberRec
  | _, _, 0 => []
  | seed, l, k + 1 =>
    if l.length = 0 then []
    else
      let i := seed % l.length
      l.getD i DEFAULT_MEMBER :: random_sample (seed / l.length) (l.eraseIdx i) k

/-- The `create_match` helper inside `generate_matches_for_user_service`
(lines 215-232): posts one match and returns its parsed body, or `None`
when the call raised any RequestException (failure swallowed). -/
def create_match (env : MatchesEnv) (p : MatchPayload) : Option RawResp :=
  match env.createMatch p with
  | none => none
  | some r => if status_error r.status then none else some r.body

/-- Kwargs object for `MatchGet(**\x7b\x7d)`: the empty dict substituted
for an empty list response. -/
def EMPTY_RAW : RawMatch :=
  { match_id := none, pool_id := none, user1_id := none, user2_id := none
  , status := none, created_at := none, updated_at := none }

/-- Modelled from the spec: MatchGet validation (models/match.py, not
under src/).  Pydantic construction succeeds exactly when every field
of the canonical Match shape is present; a missing field raises
ValidationError, which is a subclass of ValueError. -/
def matchGet_validate (m : RawMatch) : Option MatchGet :=
  match m.match_id, m.pool_id, m.user1_id, m.user2_id, m.status, m.created_at, m.updated_at with
  | some a, some b, some c, some d, some e, some f, some g =>
    some { match_id := a, pool_id := b, user1_id := c, user2_id := d
         , status := e, created_at := f, updated_at := g }
  | _, _, _, _, _, _, _ => none

/-- One iteration of the validation loop (lines 249-254): a list body is
replaced by its first element (or the empty dict); `MatchGet(**match)`
then raises ValidationError (a ValueError) on a missing field, and a
TypeError (a plain exception) when the argument is still a list. -/
def validate_one (r : RawResp) : Except ServiceError MatchGet :=
  let r1 := match r with
    | .arr l => l.headD (.obj EMPTY_RAW)
    | x => x
  match r1 with
  | .obj m =>
    match matchGet_validate m with
    | some v => .ok v
    | none => .error (.valueError "validation error for MatchGet")
  | .arr _ => .error (.exception "TypeError")

/-- The validation loop over all created matches: stops at the first
failing record, exactly as the Python for-loop raises there. -/
def validate_all : List RawResp → Except ServiceError (List MatchGet)
  | [] => .ok []
  | r :: rs =>
    match validate_one r with
    | .error e => .error e
    | .ok v =>
      match validate_all rs with
      | .error e => .error e
      | .ok vs => .ok (v :: vs)

/-- The peer filter of `generate_matches_for_user_service` (lines
195-197): keep the members whose `user_id` differs from the requesting
user.  A member without a `user_id` field compares unequal to the
requesting user (None != str(user_id)) and is therefore kept. -/
def other_members_filter (user_id : String) (members : List PoolMemberRec) :
    List PoolMemberRec :=
  members.filter (fun m => m.user_id != some user_id)

/-- The creation payloads built from the selected members (lines
218-226): `user2_id` is `str(member.get("user_id"))`. -/
def posted_payloads (pool_id user_id : String) (selected : List PoolMemberRec) :
    List MatchPayload :=
  selected.map (fun m =>
    ({ pool_id := pool_id, user1_id := user_id, user2_id := pyStr m.user_id } : MatchPayload))

/-- Result dict of `generate_matches_for_user_service`.  The dict key
named matches in the source is called `matches_list` here because
matches is a reserved word of Lean. -/
structure GenResult where
  message : String
  pool_id : String
  matches_created : Nat
  matches_list : List MatchGet
deriving Repr, DecidableEq

/-- Ghost observations of `generate_matches_for_user_service`: the
payloads posted to `POST /matches/` and the raw bodies collected from
the successful creations (in completion order). -/
structure GenGhost where
  posted : List MatchPayload
  created_raw : List RawResp

/-- `generate_matches_for_user_service` (user_match_service.py lines
164-266): resolve the pool, list its members, exclude the requesting
user, sample `min(max_matches, peers)` members, post one match per
selected member with per-call failures swallowed, collect the
successes in completion order (`reorder` models the arbitrary
completion order of the thread pool), validate each body, and shape
the result.  The second component is ghost observation only. -/
def generate_matches_for_user_service (penv : PoolsEnv) (menv : MatchesEnv)
    (reorder : List RawResp → List RawResp) (user_id : String)
    (seed : Nat) (max_matches : Nat) :
    Except ServiceError (GenResult × GenGhost) :=
  match get_user_pool_from_service penv user_id with
  | .error e => .error e
  | .ok user_pool_data =>
    let pool_id := user_pool_data.pool_id
    if pool_id = "" then
      .error (.valueError "User is not a member of any pool. Add user to a pool first.")
    else
      match penv.getPoolMembers pool_id with
      | none => .error (.runtimeError "Service communication error")
      | some mr =>
        if status_error mr.status then
          .error (.runtimeError "Service communication error")
        else
          let other_members := other_members_filter user_id mr.body
          if other_members.isEmpty then
            .ok ({ message := "No other users in the pool to match with"
                 , pool_id := pool_id
                 , matches_created := 0
                 , matches_list := [] },
                 { posted := [], created_raw := [] })
          else
            let selected := random_sample seed other_members (min max_matches other_members.length)
            let posted := posted_payloads pool_id user_id selected
            let created := reorder (posted.filterMap (create_match menv))
            match validate_all created with
            | .error e => .error e
            | .ok validated =>
              .ok ({ message := "Generated " ++ toString validated.length ++ " matches for user " ++ user_id
                   , pool_id := pool_id
                   , matches_created := validated.length
                   , matches_list := validated },
                   { posted := posted, created_raw := created })

/-- Resource-layer status mapping of `POST /users/{user_id}/matches`
(user_match.py lines 90-111): ValueError to 404, RuntimeError to 502,
any other exception to 500; success is 201. -/
def http_status_generate_matches (r : Except ServiceError (GenResult × GenGhost)) : Nat :=
  match r with
  | .ok _ => 201
  | .error (.valueError _) => 404
  | .error (.runtimeError _) => 502
  | .error _ => 500

/-- One iteration of the decision-listing loop (lines 320-333): a
falsy `match_id` skips the item; a transport failure of the per-match
GET is swallowed by the inner except-clause; a non-200 status is
skipped by the status test. -/
def decision_fetch (env : MatchesEnv) (user_id : String) (m : MatchListItem) :
    Option DecisionBody :=
  match m.match_id with
  | none => none
  | some mid =>
    if mid = "" then none
    else
      match env.getDecision mid user_id with
      | none => none
      | some dr => if dr.status == 200 then some dr.body else none

/-- `get_user_decisions_from_service` (user_match_service.py lines
299-340): list the matches of the user, then fetch the decision of the
user for each match; a per-match transport failure or non-200 status
only skips that decision.  The outer except-clause for 404 has the
same dead truthiness guard as the matches listing. -/
def get_user_decisions_from_service (env : MatchesEnv) (user_id : String) :
    Except ServiceError (List DecisionBody) :=
  match env.listMatches user_id with
  | none => .error (.runtimeError "Service communication error")
  | some mr =>
    if status_error mr.status then
      if response_truthy mr.status && mr.status == 404 then
        .ok []
      else
        .error (.runtimeError "Service communication error")
    else
      .ok (mr.body.filterMap (decision_fetch env user_id))

/-- Resource-layer status mapping of `GET /users/{user_id}/decisions`
(user_match.py lines 166-188): RuntimeError to 502, any other
exception to 500. -/
def http_status_get_user_decisions (r : Except ServiceError (List DecisionBody)) : Nat :=
  match r with
  | .ok _ => 200
  | .error (.runtimeError _) => 502
  | .error _ => 500

/-- `submit_decision_for_user_match` (user_match_service.py lines
343-375): posts the decision; the except-clause intends to map
upstream 400/403/404 to ValueError/PermissionError/ValueError, but the
whole mapping is guarded by the truthiness of `e.response`, which is
false for every 4xx/5xx response, so all three branches are dead. -/
def submit_decision_for_user_match (env : MatchesEnv)
    (user_id match_id decision : String) :
    Except ServiceError DecisionBody :=
  match env.postDecision { match_id := match_id, user_id := user_id, decision := decision } with
  | none => .error (.runtimeError "Service communication error")
  | some r =>
    if status_error r.status then
      if response_truthy r.status then
        if r.status == 400 then .error (.valueError "Invalid decision data")
        else if r.status == 403 then .error (.permissionError "User is not a participant in this match")
        else if r.status == 404 then .error (.valueError "Match not found")
        else .error (.runtimeError "Service communication error")
      else
        .error (.runtimeError "Service communication error")
    else
      .ok r.body

/-- Resource-layer status mapping of
`POST /users/{user_id}/matches/{match_id}/decisions` (user_match.py
lines 239-269): PermissionError to 403, ValueError to 400,
RuntimeError to 502, any other exception to 500; success is 201. -/
def http_status_submit_decision (r : Except ServiceError DecisionBody) : Nat :=
  match r with
  | .ok _ => 201
  | .error (.permissionError _) => 403
  | .error (.valueError _) => 400
  | .error (.runtimeError _) => 502
  | .error _ => 500

/-- `delete_user_from_pool_service` (user_match_service.py lines
378-399): deletes the membership; the except-clause intends to map an
upstream 404 to ValueError (NotMember), but the truthiness guard on
`e.response` makes that branch dead. -/
def delete_user_from_pool_service (env : PoolsEnv) (user_id : String) :
    Except ServiceError DeleteBody :=
  match env.deleteMember user_id with
  | none => .error (.runtimeError "Service communication error")
  | some r =>
    if status_error r.status then
      if response_truthy r.status && r.status == 404 then
        .error (.valueError "User is not a member of any pool")
      else
        .error (.runtimeError "Service communication error")
    else
      .ok r.body

/-- Resource-layer status mapping of `DELETE /users/{user_id}/pool`
(user_match.py lines 191-211): ValueError to 404, RuntimeError to 502,
any other exception to 500. -/
def http_status_remove_user_from_pool (r : Except ServiceError DeleteBody) : Nat :=
  match r with
  | .ok _ => 200
  | .error (.valueError _) => 404
  | .error (.runtimeError _) => 502
  | .error _ => 500

/-- `REQUEST_TIMEOUT = 5` (user_match_service.py line 16), documented
there as the default timeout for all HTTP requests, in seconds. -/
def REQUEST_TIMEOUT : Nat := 5

/-- An outbound HTTP call site of the service layer: method, URL
template, and the timeout argument passed at that site (`none` means
the call passes no timeout, i.e. the library waits without bound). -/
structure OutboundCall where
  method : String
  url : String
  timeout : Option Nat
deriving Repr, DecidableEq

/-- One entry per `requests.*` call site of
src/services/user_match_service.py, in source order, with the timeout
argument passed at that site.  Line numbers refer to the source file. -/
def outbound_calls : List OutboundCall :=
  [ { method := "GET", url := "/pools/members?user_id= (get_user_pool)", timeout := some REQUEST_TIMEOUT }
  , { method := "GET", url := "/pools/{pool_id} (get_user_pool)", timeout := some REQUEST_TIMEOUT }
  , { method := "GET", url := "/pools/?location= (add_user_to_pool)", timeout := some REQUEST_TIMEOUT }
  , { method := "POST", url := "/pools/ (add_user_to_pool)", timeout := some REQUEST_TIMEOUT }
  , { method := "POST", url := "/pools/{pool_id}/members (add_user_to_pool)", timeout := some REQUEST_TIMEOUT }
  , { method := "GET", url := "/matches/?user_id= (get_user_matches)", timeout := some REQUEST_TIMEOUT }
  , { method := "GET", url := "/pools/{pool_id}/members (generate_matches, line 188)", timeout := none }
  , { method := "POST", url := "/matches/ (generate_matches create_match)", timeout := some REQUEST_TIMEOUT }
  , { method := "GET", url := "/pools/{pool_id}/members (get_pool_members)", timeout := some REQUEST_TIMEOUT }
  , { method := "GET", url := "/matches/?user_id= (get_user_decisions)", timeout := some REQUEST_TIMEOUT }
  , { method := "GET", url := "/matches/{match_id}/decisions/{user_id} (get_user_decisions)", timeout := some REQUEST_TIMEOUT }
  , { method := "POST", url := "/matches/{match_id}/decisions (submit_decision)", timeout := some REQUEST_TIMEOUT }
  , { method := "DELETE", url := "/pools/members/{user_id} (delete_user_from_pool)", timeout := some REQUEST_TIMEOUT }
  , { method := "PATCH", url := "/pools/{pool_id}/members/{user_id} (update_coordinates)", timeout := some REQUEST_TIMEOUT } ]

/-! ## Concrete environments used by witnesses and counterexamples -/

/-- A raw match body with every canonical field present, echoing the
creation payload, as a well-formed matches service would return it. -/
def mkRawMatch (p : MatchPayload) : RawMatch :=
  { match_id := some ("match-" ++ p.user2_id), pool_id := some p.pool_id
  , user1_id := some p.user1_id, user2_id := some p.user2_id
  , status := some "waiting", created_at := some "t0", updated_at := some "t0" }

/-- A well-behaved pools service: one membership in pool p1, two pools
at every location (one with 3 members, one full with 20), consistent
pool details, and successful member mutations. -/
def poolsEnvA : PoolsEnv :=
  { listMembersByUser := fun u =>
      some ⟨200, [{ pool_id := some "p1", user_id := u, joined_at := "2024-01-01" }]⟩
  , getPool := fun pid =>
      some ⟨200, { id := pid, name := "Pool One", location := some "NYC", member_count := some 3 }⟩
  , listPoolsByLocation := fun _ =>
      some ⟨200, .arr [{ id := "pa", member_count := some 3 }, { id := "pb", member_count := some 20 }]⟩
  , createPool := fun _ _ => some ⟨201, .obj { id := "pnew", member_count := some 0 }⟩
  , addMember := fun _ p => some ⟨201, { user_id := some p.user_id, joined_at := some "2024-01-02" }⟩
  , getPoolMembers := fun _ =>
      some ⟨200, [{ user_id := some "u1" }, { user_id := some "u2" }, { user_id := some "u3" }]⟩
  , deleteMember := fun _ => some ⟨200, { detail := some "removed" }⟩ }

/-- A matches service where creating a match against u3 fails (for
instance because that pair already exists) and the decision fetch
succeeds only for match m1: exercises both partial-failure paths. -/
def matchesEnvA : MatchesEnv :=
  { listMatches := fun _ => some ⟨200, [{ match_id := some "m1" }, { match_id := some "m2" }]⟩
  , createMatch := fun p =>
      if p.user2_id = "u3" then none else some ⟨201, .obj (mkRawMatch p)⟩
  , getDecision := fun mid _ =>
      if mid = "m1" then
        some ⟨200, { match_id := some "m1", user_id := some "u1"
                   , decision := some "accept", decided_at := some "t1" }⟩
      else none
  , postDecision := fun _ =>
      some ⟨201, { match_id := none, user_id := none, decision := none, decided_at := none }⟩ }

/-- A matches service whose every response is HTTP 404 (no matches, no
match for the decision post). -/
def matchesEnv404 : MatchesEnv :=
  { listMatches := fun _ => some ⟨404, []⟩
  , createMatch := fun _ => none
  , getDecision := fun _ _ => none
  , postDecision := fun _ =>
      some ⟨404, { match_id := none, user_id := none, decision := none, decided_at := none }⟩ }

/-- A matches service whose decision post is rejected with HTTP 400. -/
def matchesEnv400 : MatchesEnv :=
  { listMatches := fun _ => none
  , createMatch := fun _ => none
  , getDecision := fun _ _ => none
  , postDecision := fun _ =>
      some ⟨400, { match_id := none, user_id := none, decision := none, decided_at := none }⟩ }

/-- A matches service whose decision post is rejected with HTTP 403
(the user is not a participant of the match). -/
def matchesEnv403 : MatchesEnv :=
  { listMatches := fun _ => none
  , createMatch := fun _ => none
  , getDecision := fun _ _ => none
  , postDecision := fun _ =>
      some ⟨403, { match_id := none, user_id := none, decision := none, decided_at := none }⟩ }

/-- A pools service whose membership delete answers HTTP 404 (the user
was never a member). -/
def poolsEnvDel404 : PoolsEnv :=
  { listMembersByUser := fun _ => none
  , getPool := fun _ => none
  , listPoolsByLocation := fun _ => none
  , createPool := fun _ _ => none
  , addMember := fun _ _ => none
  , getPoolMembers := fun _ => none
  , deleteMember := fun _ => some ⟨404, { detail := none }⟩ }

/-- A pools service with no pool at any location, used to exercise the
pool-creation branch. -/
def poolsEnvEmpty : PoolsEnv :=
  { listMembersByUser := fun _ => some ⟨200, []⟩
  , getPool := fun pid =>
      some ⟨200, { id := pid, name := "Pool for NYC", location := some "NYC", member_count := some 0 }⟩
  , listPoolsByLocation := fun _ => some ⟨200, .arr []⟩
  , createPool := fun _ _ => some ⟨201, .obj { id := "pnew", member_count := some 0 }⟩
  , addMember := fun _ p => some ⟨201, { user_id := some p.user_id, joined_at := some "2024-01-02" }⟩
  , getPoolMembers := fun _ => some ⟨200, []⟩
  , deleteMember := fun _ => some ⟨200, { detail := some "removed" }⟩ }

/-- The member list served by `poolsEnvA.getPoolMembers`. -/
def membersA : List PoolMemberRec :=
  [{ user_id := some "u1" }, { user_id := some "u2" }, { user_id := some "u3" }]

/-- The merged pool record that `get_user_pool_from_service` returns
under `poolsEnvA` for user u1. -/
def updA : UserPoolRead :=
  { pool_id := "p1", pool_name := "Pool One", location := some "NYC"
  , member_count := some 3, joined_at := "2024-01-01", user_id := "u1" }

/-- The generate-matches result under `poolsEnvA`/`matchesEnvA` for
user u1 with seed 0: two peers selected, the creation against u3
fails, one match remains. -/
def genR_A : GenResult :=
  { message := "Generated 1 matches for user u1", pool_id := "p1", matches_created := 1
  , matches_list := [{ match_id := "match-u2", pool_id := "p1", user1_id := "u1"
                     , user2_id := "u2", status := "waiting"
                     , created_at := "t0", updated_at := "t0" }] }

/-- The ghost observations matching `genR_A`. -/
def genG_A : GenGhost :=
  { posted := [{ pool_id := "p1", user1_id := "u1", user2_id := "u2" }
             , { pool_id := "p1", user1_id := "u1", user2_id := "u3" }]
  , created_raw := [.obj (mkRawMatch { pool_id := "p1", user1_id := "u1", user2_id := "u2" })] }

/-! ## Helper lemmas -/

/-- `random.choice` on a non-empty list returns one of its elements. -/
theorem random_choice_mem (seed : Nat) (pools : List PoolObj) (h : pools ≠ []) :
    random_choice seed pools ∈ pools := by
  have hlen : 0 < pools.length := List.length_pos.mpr h
  have hlt : seed % pools.length < pools.length := Nat.mod_lt _ hlen
  rw [random_choice, List.getD_eq_getElem _ _ hlt]
  exact List.getElem_mem hlt

/-- Moving the element at a valid index to the front is a permutation. -/
theorem getD_cons_eraseIdx_perm {α : Type} (d : α) :
    ∀ (l : List α) (i : Nat), i < l.length → (l.getD i d :: l.eraseIdx i).Perm l
  | [], i, h => absurd h (by simp)
  | a :: t, 0, _ => by simp [List.getD]
  | a :: t, i + 1, h => by
    have ht : i < t.length := by simpa using h
    have ih := getD_cons_eraseIdx_perm d t i ht
    simp only [List.getD_cons_succ, List.eraseIdx_cons_succ]
    exact (List.Perm.swap a (t.getD i d) (t.eraseIdx i)).trans (ih.cons a)

/-- `random.sample(l, k)` returns `min k l.length` elements. -/
theorem random_sample_length :
    ∀ (k seed : Nat) (l : List PoolMemberRec),
      (random_sample seed l k).length = min k l.length
  | 0, _, _ => by simp [random_sample]
  | k + 1, seed, l => by
    by_cases h : l.length = 0
    · simp [random_sample, h]
    · have hlt : seed % l.length < l.length := Nat.mod_lt _ (Nat.pos_of_ne_zero h)
      have ih := random_sample_length k (seed / l.length) (l.eraseIdx (seed % l.length))
      simp only [random_sample, h, if_false, List.length_cons, ih,
        List.length_eraseIdx_of_lt hlt]
      omega

/-- `random.sample(l, k)` draws without replacement: the sample is a
sub-permutation of the population. -/
theorem random_sample_subperm :
    ∀ (k seed : Nat) (l : List PoolMemberRec), (random_sample seed l k).Subperm l
  | 0, _, l => by simp [random_sample, List.nil_subperm]
  | k + 1, seed, l => by
    by_cases h : l.length = 0
    · simp [random_sample, h, List.nil_subperm]
    · have hlt : seed % l.length < l.length := Nat.mod_lt _ (Nat.pos_of_ne_zero h)
      have ih := random_sample_subperm k (seed / l.length) (l.eraseIdx (seed % l.length))
      have hcons := (List.subperm_cons (l.getD (seed % l.length) DEFAULT_MEMBER)).mpr ih
      have hperm := getD_cons_eraseIdx_perm DEFAULT_MEMBER l (seed % l.length) hlt
      simpa [random_sample, h] using hcons.trans hperm.subperm

/-- Every member of the population is reachable by some seed: the
modelled sampling has full support, as uniform sampling requires. -/
theorem random_sample_reach (k : Nat) (l : List PoolMemberRec) (x : PoolMemberRec)
    (hx : x ∈ l) : ∃ s, x ∈ random_sample s l (k + 1) := by
  obtain ⟨i, hi, hget⟩ := List.getElem_of_mem hx
  refine ⟨i, ?_⟩
  have h0 : ¬l.length = 0 := by
    intro h
    rw [List.length_eq_zero] at h
    subst h
    simp at hx
  rw [random_sample, if_neg h0, Nat.mod_eq_of_lt hi]
  show x ∈ l.getD i DEFAULT_MEMBER :: random_sample (i / l.length) (l.eraseIdx i) k
  rw [List.getD_eq_getElem l _ hi, hget]
  exact List.mem_cons_self x _

/-- A successful validation pass preserves the number of records. -/
theorem validate_all_length : ∀ (l : List RawResp) (v : List MatchGet),
    validate_all l = .ok v → v.length = l.length
  | [], v, h => by
    simp only [validate_all] at h
    cases h
    rfl
  | r :: rs, v, h => by
    simp only [validate_all] at h
    cases h1 : validate_one r with
    | error e => rw [h1] at h; cases h
    | ok x =>
      rw [h1] at h
      cases h2 : validate_all rs with
      | error e => rw [h2] at h; cases h
      | ok xs =>
        rw [h2] at h
        cases h
        simp [validate_all_length rs xs h2]

/-- If every record validates, the validation pass succeeds. -/
theorem validate_all_ok : ∀ (l : List RawResp),
    (∀ r ∈ l, ∃ v, validate_one r = .ok v) → ∃ vs, validate_all l = .ok vs
  | [], _ => ⟨[], rfl⟩
  | r :: rs, h => by
    obtain ⟨v, hv⟩ := h r (by simp)
    obtain ⟨vs, hvs⟩ := validate_all_ok rs (fun x hx => h x (by simp [hx]))
    exact ⟨v :: vs, by simp [validate_all, hv, hvs]⟩

/-! ## Claim theorems -/

/-- C5: the claim says upstream 400/403/404 on the decision post are
mapped to InvalidDecision (HTTP 400), NotParticipant (HTTP 403) and
MatchNotFound (HTTP 404).  In the code the whole mapping is guarded by
the truthiness of `e.response`, which is false for every 4xx response,
so the three branches are unreachable: each of the three upstream
statuses is surfaced as RuntimeError, i.e. HTTP 502. -/
theorem claim_C5_submit_decision_mapping_dead :
    submit_decision_for_user_match matchesEnv400 "u4" "m1" "accept"
      = .error (.runtimeError "Service communication error") ∧
    http_status_submit_decision
      (submit_decision_for_user_match matchesEnv400 "u4" "m1" "accept") = 502 ∧
    submit_decision_for_user_match matchesEnv403 "u4" "m1" "accept"
      = .error (.runtimeError "Service communication error") ∧
    http_status_submit_decision
      (submit_decision_for_user_match matchesEnv403 "u4" "m1" "accept") = 502 ∧
    submit_decision_for_user_match matchesEnv404 "u4" "m1" "accept"
      = .error (.runtimeError "Service communication error") ∧
    http_status_submit_decision
      (submit_decision_for_user_match matchesEnv404 "u4" "m1" "accept") = 502 :=
  ⟨rfl, rfl, rfl, rfl, rfl, rfl⟩

/-- C6: the claim says an upstream 404 on the match listing yields an
empty sequence for both ListUserMatches and ListUserDecisions.  The
intended `return []` branch is guarded by the truthiness of
`e.response`, which is false for a 404 response, so both operations
instead raise RuntimeError, surfaced as HTTP 502. -/
theorem claim_C6_listing_404_branch_dead :
    get_user_matches_from_service matchesEnv404 "u1"
      = .error (.runtimeError "Service communication error") ∧
    http_status_get_user_matches (get_user_matches_from_service matchesEnv404 "u1") = 502 ∧
    get_user_decisions_from_service matchesEnv404 "u1"
      = .error (.runtimeError "Service communication error") ∧
    http_status_get_user_decisions (get_user_decisions_from_service matchesEnv404 "u1") = 502 :=
  ⟨rfl, rfl, rfl, rfl⟩

/-- C7: the claim says an upstream 404 on the membership delete is
surfaced as NotMember (HTTP 404).  The intended ValueError branch is
guarded by the truthiness of `e.response`, which is false for a 404
response, so the operation instead raises RuntimeError, surfaced as
HTTP 502 (Unavailable). -/
theorem claim_C7_remove_404_branch_dead :
    delete_user_from_pool_service poolsEnvDel404 "u9"
      = .error (.runtimeError "Service communication error") ∧
    http_status_remove_user_from_pool (delete_user_from_pool_service poolsEnvDel404 "u9") = 502 :=
  ⟨rfl, rfl⟩

/-- C8: the claim says every outbound HTTP call carries the bounded
per-call timeout of 5.  Exactly one call site violates this: the
pool-members GET inside generate_matches (line 188) passes no timeout
argument, so that call can wait without bound; every other call site
passes REQUEST_TIMEOUT. -/
theorem claim_C8_one_call_without_timeout :
    ¬(∀ c ∈ outbound_calls, c.timeout = some REQUEST_TIMEOUT) ∧
    (outbound_calls.filter (fun c => c.timeout != some REQUEST_TIMEOUT)).map OutboundCall.url
      = ["/pools/{pool_id}/members (generate_matches, line 188)"] := by
  constructor
  · decide
  · rfl

/-- C10: a listed pool object without a member_count field is read as
`.get("member_count", 0)`, i.e. as 0, so the capacity filter of
AddUserToPool accepts it whenever the policy constant is positive (the
resource layer always passes max_pool_size = 20). -/
theorem claim_C10_missing_member_count_eligible (p : PoolObj)
    (hp : p.member_count = none) :
    pool_eligible 20 p = true ∧
    (∀ max_pool_size : Int, 0 < max_pool_size → pool_eligible max_pool_size p = true) ∧
    (∀ (rawPools : List PoolObj) (max_pool_size : Int),
       p ∈ rawPools → 0 < max_pool_size →
       p ∈ rawPools.filter (pool_eligible max_pool_size)) := by
  refine ⟨?_, ?_, ?_⟩
  · simp [pool_eligible, hp]
  · intro m hm
    simp [pool_eligible, hp, hm]
  · intro rawPools m hmem hm
    exact List.mem_filter_of_mem hmem (by simp [pool_eligible, hp, hm])

/-- Witness for C10 at a concrete pool object. -/
theorem claim_C10_witness :
    ({ id := "px", member_count := none } : PoolObj).member_count = none ∧
    pool_eligible 20 { id := "px", member_count := none } = true :=
  ⟨rfl, (claim_C10_missing_member_count_eligible { id := "px", member_count := none } rfl).1⟩

/-- C4: when the membership lookup returns an empty list, GetUserPool
fails with the NotMember ValueError, surfaced as HTTP 404; when a
membership exists and the pool fetch is consistent (the pool fetched
by id reports that id), the operation returns the merged record
\x7bpool_id, pool_name, location, member_count, joined_at, user_id\x7d
whose pool_id equals the pool_id of the membership record. -/
theorem claim_C4_get_user_pool (env : PoolsEnv) (uid : String) :
    (∀ st, env.listMembersByUser uid = some ⟨st, []⟩ → status_error st = false →
       get_user_pool_from_service env uid
         = .error (.valueError "User is not a member of any pool") ∧
       http_status_get_user_pool (get_user_pool_from_service env uid) = 404) ∧
    (∀ st m rest pid pst pool,
       env.listMembersByUser uid = some ⟨st, m :: rest⟩ → status_error st = false →
       m.pool_id = some pid →
       env.getPool pid = some ⟨pst, pool⟩ → status_error pst = false →
       pool.id = pid →
       get_user_pool_from_service env uid = .ok
         { pool_id := pid, pool_name := pool.name, location := pool.location
         , member_count := pool.member_count, joined_at := m.joined_at
         , user_id := m.user_id }) := by
  constructor
  · intro st h hst
    have hres : get_user_pool_from_service env uid
        = .error (.valueError "User is not a member of any pool") := by
      unfold get_user_pool_from_service
      rw [h]
      simp [hst]
    exact ⟨hres, by rw [hres]; rfl⟩
  · intro st m rest pid pst pool h hst hpid hpool hpst hid
    unfold get_user_pool_from_service
    rw [h]
    simp only [hst, Bool.false_eq_true, if_false]
    rw [show pyStr m.pool_id = pid by rw [hpid]; rfl, hpool]
    simp [hpst, hid]

/-- Witness for C4: the empty-membership branch under `poolsEnvEmpty`
and the merged-record branch under `poolsEnvA`. -/
theorem claim_C4_witness :
    status_error 200 = false ∧
    get_user_pool_from_service poolsEnvEmpty "u7"
      = .error (.valueError "User is not a member of any pool") ∧
    http_status_get_user_pool (get_user_pool_from_service poolsEnvEmpty "u7") = 404 ∧
    get_user_pool_from_service poolsEnvA "u1" = .ok
      { pool_id := "p1", pool_name := "Pool One", location := some "NYC"
      , member_count := some 3, joined_at := "2024-01-01", user_id := "u1" } := by
  have h1 := claim_C4_get_user_pool poolsEnvEmpty "u7"
  have h2 := claim_C4_get_user_pool poolsEnvA "u1"
  refine ⟨rfl, (h1.1 200 rfl rfl).1, (h1.1 200 rfl rfl).2, ?_⟩
  exact h2.2 200 { pool_id := some "p1", user_id := "u1", joined_at := "2024-01-01" } []
    "p1" 200 { id := "p1", name := "Pool One", location := some "NYC", member_count := some 3 }
    rfl rfl rfl rfl rfl rfl

/-- C1: AddUserToPool filters the pools listed at the location to those
with member_count below max_pool_size; whenever the operation succeeds
it either picked an eligible pool (never a full one) chosen as
`random.choice` over the eligible list, with every eligible pool
reachable by some seed, or, exactly when no eligible pool remained,
created a new pool named deterministically "Pool for " ++ location and
added the user there. -/
theorem claim_C1_add_user_pool_policy (env : PoolsEnv)
    (uid loc : String) (cx cy : Option Int) (seed : Nat) (max_pool_size : Int)
    (st : Nat) (rawPools : List PoolObj)
    (hlist : env.listPoolsByLocation loc = some ⟨st, .arr rawPools⟩)
    (hst : status_error st = false) :
    (∀ r src, add_user_to_pool_service env uid loc cx cy seed max_pool_size = .ok (r, src) →
       (∀ p, src = .picked p →
          rawPools.filter (pool_eligible max_pool_size) ≠ [] ∧
          p ∈ rawPools.filter (pool_eligible max_pool_size) ∧
          p.member_count.getD 0 < max_pool_size ∧
          p = random_choice seed (rawPools.filter (pool_eligible max_pool_size)) ∧
          r.pool_id = p.id) ∧
       (∀ p, src = .created p →
          rawPools.filter (pool_eligible max_pool_size) = [] ∧
          (∃ cst, env.createPool ("Pool for " ++ loc) loc = some ⟨cst, .obj p⟩) ∧
          r.pool_id = p.id)) ∧
    (∀ p, p ∈ rawPools.filter (pool_eligible max_pool_size) →
       ∃ s, random_choice s (rawPools.filter (pool_eligible max_pool_size)) = p) := by
  constructor
  · intro r src hok
    unfold add_user_to_pool_service at hok
    rw [hlist] at hok
    simp only [hst, Bool.false_eq_true, if_false] at hok
    by_cases hem : (rawPools.filter (pool_eligible max_pool_size)).isEmpty
    · simp only [hem, if_true] at hok
      cases hcr : env.createPool ("Pool for " ++ loc) loc with
      | none => rw [hcr] at hok; cases hok
      | some cr =>
        obtain ⟨cst, cbody⟩ := cr
        rw [hcr] at hok
        by_cases hcs : status_error cst
        · simp [hcs] at hok
        · simp only [hcs, Bool.false_eq_true, if_false] at hok
          cases cbody with
          | nonDict => cases hok
          | obj p0 =>
            dsimp only at hok
            cases ham : env.addMember p0.id { user_id := uid, coord_x := cx, coord_y := cy } with
            | none => rw [ham] at hok; cases hok
            | some am =>
              obtain ⟨ast, ab⟩ := am
              rw [ham] at hok
              by_cases has : status_error ast
              · simp [has] at hok
              · simp only [has, Bool.false_eq_true, if_false,
                  Except.ok.injEq, Prod.mk.injEq] at hok
                obtain ⟨hr, hsrc⟩ := hok
                subst hsrc
                constructor
                · intro p hp
                  cases hp
                · intro p hp
                  cases hp
                  refine ⟨List.isEmpty_iff.mp hem, ⟨cst, rfl⟩, ?_⟩
                  rw [← hr]
    · simp only [hem, Bool.false_eq_true, if_false] at hok
      cases ham : env.addMember
          (random_choice seed (rawPools.filter (pool_eligible max_pool_size))).id
          { user_id := uid, coord_x := cx, coord_y := cy } with
      | none => rw [ham] at hok; cases hok
      | some am =>
        obtain ⟨ast, ab⟩ := am
        rw [ham] at hok
        by_cases has : status_error ast
        · simp [has] at hok
        · simp only [has, Bool.false_eq_true, if_false,
            Except.ok.injEq, Prod.mk.injEq] at hok
          obtain ⟨hr, hsrc⟩ := hok
          subst hsrc
          have hne : rawPools.filter (pool_eligible max_pool_size) ≠ [] := by
            intro hnil
            rw [hnil] at hem
            exact hem rfl
          constructor
          · intro p hp
            cases hp
            have hmem := random_choice_mem seed (rawPools.filter (pool_eligible max_pool_size)) hne
            refine ⟨hne, hmem, ?_, rfl, ?_⟩
            · have := (List.mem_filter.mp hmem).2
              exact of_decide_eq_true this
            · rw [← hr]
          · intro p hp
            cases hp
  · intro p hp
    obtain ⟨i, hi, hget⟩ := List.getElem_of_mem hp
    refine ⟨i, ?_⟩
    rw [random_choice, Nat.mod_eq_of_lt hi, List.getD_eq_getElem _ _ hi, hget]

/-- Witness for C1: under `poolsEnvA` at location NYC with
max_pool_size 20, the full pool pb is filtered out, pa is picked, and
its member count is below the cap. -/
theorem claim_C1_witness :
    status_error 200 = false ∧
    (({ id := "pa", member_count := some 3 } : PoolObj)
        ∈ ([{ id := "pa", member_count := some 3 }, { id := "pb", member_count := some 20 }]
            : List PoolObj).filter (pool_eligible 20) ∧
     (({ id := "pa", member_count := some 3 } : PoolObj).member_count.getD 0 < 20)) := by
  have h := claim_C1_add_user_pool_policy poolsEnvA "u1" "NYC" none none 0 20 200
    [{ id := "pa", member_count := some 3 }, { id := "pb", member_count := some 20 }] rfl rfl
  have h2 := (h.1
    { user_id := "u1", pool_id := "pa", location := "NYC"
    , member := { user_id := some "u1", joined_at := some "2024-01-02" } }
    (.picked { id := "pa", member_count := some 3 }) rfl).1
    { id := "pa", member_count := some 3 } rfl
  exact ⟨rfl, h2.2.1, h2.2.2.1⟩

/-- C9: whenever GenerateMatches succeeds, the returned record has
matches_created equal to the length of the returned matches list (in
both the zero-peer branch and the creation branch), and the list is
exactly the successful validation of the raw bodies collected from the
successful creation calls. -/
theorem claim_C9_matches_created_consistent
    (penv : PoolsEnv) (menv : MatchesEnv) (reorder : List RawResp → List RawResp)
    (uid : String) (seed maxm : Nat) (r : GenResult) (g : GenGhost)
    (hok : generate_matches_for_user_service penv menv reorder uid seed maxm = .ok (r, g)) :
    r.matches_created = r.matches_list.length ∧
    validate_all g.created_raw = .ok r.matches_list := by
  unfold generate_matches_for_user_service at hok
  cases hp : get_user_pool_from_service penv uid with
  | error e => rw [hp] at hok; cases hok
  | ok upd =>
    rw [hp] at hok
    dsimp only at hok
    by_cases hpe : upd.pool_id = ""
    · simp [hpe] at hok
    · rw [if_neg hpe] at hok
      cases hm : penv.getPoolMembers upd.pool_id with
      | none => rw [hm] at hok; cases hok
      | some mr =>
        obtain ⟨mst, mbody⟩ := mr
        rw [hm] at hok
        by_cases hms : status_error mst
        · simp [hms] at hok
        · simp only [hms, Bool.false_eq_true, if_false] at hok
          by_cases hemp : (other_members_filter uid mbody).isEmpty
          · simp only [hemp, if_true, Except.ok.injEq, Prod.mk.injEq] at hok
            obtain ⟨hr, hg⟩ := hok
            subst hr
            subst hg
            exact ⟨rfl, rfl⟩
          · simp only [hemp, Bool.false_eq_true, if_false] at hok
            cases hv : validate_all (reorder ((posted_payloads upd.pool_id uid
                (random_sample seed (other_members_filter uid mbody)
                  (min maxm (other_members_filter uid mbody).length))).filterMap
                  (create_match menv))) with
            | error e => rw [hv] at hok; cases hok
            | ok validated =>
              rw [hv] at hok
              simp only [Except.ok.injEq, Prod.mk.injEq] at hok
              obtain ⟨hr, hg⟩ := hok
              subst hr
              subst hg
              exact ⟨rfl, hv⟩

/-- Witness for C9 at the concrete environments: two peers, one failed
creation, one validated match. -/
theorem claim_C9_witness :
    genR_A.matches_created = genR_A.matches_list.length ∧
    validate_all genG_A.created_raw = .ok genR_A.matches_list :=
  claim_C9_matches_created_consistent poolsEnvA matchesEnvA id "u1" 0 10 genR_A genG_A rfl

/-- C2: whenever GenerateMatches succeeds, the returned matches list
has at most min(max_matches, peer_count) entries, where peer_count
counts the pool members other than the requesting user; every posted
creation payload has user1_id equal to the requesting user and
user2_id different from it (the requesting user is excluded from the
peer candidates); the sampling draws exactly min(max_matches,
peer_count) peers without replacement (a sub-permutation of the
peers), every peer being reachable by some seed; and with zero peers
the operation returns the zero-match result rather than an error. -/
theorem claim_C2_generate_matches_policy
    (penv : PoolsEnv) (menv : MatchesEnv) (reorder : List RawResp → List RawResp)
    (uid : String) (seed maxm : Nat) (upd : UserPoolRead)
    (mst : Nat) (members : List PoolMemberRec)
    (hre : ∀ l, (reorder l).Perm l)
    (hpool : get_user_pool_from_service penv uid = .ok upd)
    (hpid : ¬upd.pool_id = "")
    (hmem : penv.getPoolMembers upd.pool_id = some ⟨mst, members⟩)
    (hmst : status_error mst = false)
    (huid : ¬uid = "None") :
    (∀ r g, generate_matches_for_user_service penv menv reorder uid seed maxm = .ok (r, g) →
       r.matches_list.length ≤ min maxm (other_members_filter uid members).length ∧
       (∀ p ∈ g.posted, p.user1_id = uid ∧ ¬p.user2_id = uid)) ∧
    (other_members_filter uid members = [] →
       generate_matches_for_user_service penv menv reorder uid seed maxm =
         .ok ({ message := "No other users in the pool to match with"
              , pool_id := upd.pool_id, matches_created := 0, matches_list := [] },
              { posted := [], created_raw := [] })) ∧
    ((random_sample seed (other_members_filter uid members)
        (min maxm (other_members_filter uid members).length)).length
       = min maxm (other_members_filter uid members).length ∧
     (random_sample seed (other_members_filter uid members)
        (min maxm (other_members_filter uid members).length)).Subperm
       (other_members_filter uid members)) ∧
    (∀ x ∈ other_members_filter uid members,
       0 < min maxm (other_members_filter uid members).length →
       ∃ s, x ∈ random_sample s (other_members_filter uid members)
                  (min maxm (other_members_filter uid members).length)) := by
  refine ⟨?_, ?_, ⟨?_, random_sample_subperm _ _ _⟩, ?_⟩
  · intro r g hok
    unfold generate_matches_for_user_service at hok
    rw [hpool] at hok
    dsimp only at hok
    rw [if_neg hpid, hmem] at hok
    dsimp only at hok
    simp only [hmst, Bool.false_eq_true, if_false] at hok
    by_cases hemp : (other_members_filter uid members).isEmpty
    · simp only [hemp, if_true, Except.ok.injEq, Prod.mk.injEq] at hok
      obtain ⟨hr, hg⟩ := hok
      subst hr
      subst hg
      exact ⟨Nat.zero_le _, by intro p hp; cases hp⟩
    · simp only [hemp, Bool.false_eq_true, if_false] at hok
      cases hv : validate_all (reorder ((posted_payloads upd.pool_id uid
          (random_sample seed (other_members_filter uid members)
            (min maxm (other_members_filter uid members).length))).filterMap
            (create_match menv))) with
      | error e => rw [hv] at hok; cases hok
      | ok validated =>
        rw [hv] at hok
        simp only [Except.ok.injEq, Prod.mk.injEq] at hok
        obtain ⟨hr, hg⟩ := hok
        subst hr
        subst hg
        constructor
        · have h1 := validate_all_length _ _ hv
          have h2 := (hre ((posted_payloads upd.pool_id uid
              (random_sample seed (other_members_filter uid members)
                (min maxm (other_members_filter uid members).length))).filterMap
                (create_match menv))).length_eq
          have h3 := List.length_filterMap_le (create_match menv)
            (posted_payloads upd.pool_id uid
              (random_sample seed (other_members_filter uid members)
                (min maxm (other_members_filter uid members).length)))
          have h4 : (posted_payloads upd.pool_id uid
              (random_sample seed (other_members_filter uid members)
                (min maxm (other_members_filter uid members).length))).length
              = min maxm (other_members_filter uid members).length := by
            rw [posted_payloads, List.length_map, random_sample_length]
            exact Nat.min_eq_left (Nat.min_le_right _ _)
          calc validated.length
              = _ := h1
            _ = _ := h2
            _ ≤ _ := h3
            _ = _ := h4
        · intro p hp
          obtain ⟨m, hmsel, hfm⟩ := List.mem_map.mp hp
          have hmo : m ∈ other_members_filter uid members :=
            (random_sample_subperm _ seed _).subset hmsel
          have hne : (m.user_id != some uid) = true :=
            (List.mem_filter.mp hmo).2
          rw [bne_iff_ne] at hne
          subst hfm
          refine ⟨rfl, ?_⟩
          cases hmu : m.user_id with
          | none =>
            show ¬pyStr none = uid
            intro h
            exact huid h.symm
          | some s =>
            show ¬pyStr (some s) = uid
            intro h
            rw [hmu] at hne
            exact hne (by rw [show pyStr (some s) = s from rfl] at h; rw [h])
  · intro hnil
    have hemp : (other_members_filter uid members).isEmpty = true := by
      rw [hnil]
      rfl
    unfold generate_matches_for_user_service
    rw [hpool]
    dsimp only
    rw [if_neg hpid, hmem]
    dsimp only
    simp only [hmst, Bool.false_eq_true, if_false, hemp, if_true]
  · rw [random_sample_length]
    exact Nat.min_eq_left (Nat.min_le_right _ _)
  · intro x hx hpos
    obtain ⟨k, hk⟩ : ∃ k, min maxm (other_members_filter uid members).length = k + 1 :=
      ⟨min maxm (other_members_filter uid members).length - 1, by omega⟩
    rw [hk]
    exact random_sample_reach k _ x hx

/-- Witness for C2 at the concrete environments: two peers, at most
min 10 2 matches, no self-pairing in the posted payloads. -/
theorem claim_C2_witness :
    genR_A.matches_list.length ≤ min 10 (other_members_filter "u1" membersA).length ∧
    (∀ p ∈ genG_A.posted, p.user1_id = "u1" ∧ ¬p.user2_id = "u1") := by
  have h := claim_C2_generate_matches_policy poolsEnvA matchesEnvA id "u1" 0 10 updA 200
    membersA (fun l => List.Perm.refl l) rfl (by decide) rfl rfl (by decide)
  exact h.1 genR_A genG_A rfl

/-- C3: per-item upstream failures are swallowed in the two
partial-failure-tolerant operations.  In GenerateMatches, whatever
subset of the individual creation calls fails (the environment is
arbitrary in that respect), the operation still succeeds as long as
the surrounding steps do and the surviving records validate.  In
ListUserDecisions, the aggregation always completes with exactly the
per-match fetches that succeeded, each failed or non-200 fetch being
skipped. -/
theorem claim_C3_partial_failures_swallowed
    (penv : PoolsEnv) (menv : MatchesEnv) (reorder : List RawResp → List RawResp)
    (uid : String) (seed maxm : Nat) (upd : UserPoolRead)
    (mst : Nat) (members : List PoolMemberRec)
    (hre : ∀ l, (reorder l).Perm l)
    (hpool : get_user_pool_from_service penv uid = .ok upd)
    (hpid : ¬upd.pool_id = "")
    (hmem : penv.getPoolMembers upd.pool_id = some ⟨mst, members⟩)
    (hmst : status_error mst = false)
    (hval : ∀ raw ∈ (posted_payloads upd.pool_id uid
              (random_sample seed (other_members_filter uid members)
                (min maxm (other_members_filter uid members).length))).filterMap
                (create_match menv),
            ∃ v, validate_one raw = .ok v) :
    (∃ r g, generate_matches_for_user_service penv menv reorder uid seed maxm = .ok (r, g)) ∧
    (∀ (dst : Nat) (items : List MatchListItem),
       menv.listMatches uid = some ⟨dst, items⟩ → status_error dst = false →
       get_user_decisions_from_service menv uid
         = .ok (items.filterMap (decision_fetch menv uid))) := by
  constructor
  · by_cases hemp : (other_members_filter uid members).isEmpty
    · refine ⟨{ message := "No other users in the pool to match with"
              , pool_id := upd.pool_id, matches_created := 0, matches_list := [] },
              { posted := [], created_raw := [] }, ?_⟩
      unfold generate_matches_for_user_service
      rw [hpool]
      dsimp only
      rw [if_neg hpid, hmem]
      dsimp only
      simp only [hmst, Bool.false_eq_true, if_false, hemp, if_true]
    · have hval2 : ∀ raw ∈ reorder ((posted_payloads upd.pool_id uid
          (random_sample seed (other_members_filter uid members)
            (min maxm (other_members_filter uid members).length))).filterMap
            (create_match menv)),
          ∃ v, validate_one raw = .ok v :=
        fun raw hraw => hval raw ((hre _).mem_iff.mp hraw)
      obtain ⟨vs, hvs⟩ := validate_all_ok _ hval2
      refine ⟨{ message := "Generated " ++ toString vs.length ++ " matches for user " ++ uid
              , pool_id := upd.pool_id, matches_created := vs.length, matches_list := vs },
              { posted := posted_payloads upd.pool_id uid
                  (random_sample seed (other_members_filter uid members)
                    (min maxm (other_members_filter uid members).length))
              , created_raw := reorder ((posted_payloads upd.pool_id uid
                  (random_sample seed (other_members_filter uid members)
                    (min maxm (other_members_filter uid members).length))).filterMap
                    (create_match menv)) }, ?_⟩
      unfold generate_matches_for_user_service
      rw [hpool]
      dsimp only
      rw [if_neg hpid, hmem]
      dsimp only
      simp only [hmst, Bool.false_eq_true, if_false, hemp]
      rw [hvs]
  · intro dst items hl hst2
    unfold get_user_decisions_from_service
    rw [hl]
    dsimp only
    simp only [hst2, Bool.false_eq_true, if_false]

/-- Witness for C3 at the concrete environments: the creation against
u3 fails yet GenerateMatches succeeds, and the decision listing
completes with only the m1 decision, the m2 fetch having failed. -/
theorem claim_C3_witness :
    (∃ r g, generate_matches_for_user_service poolsEnvA matchesEnvA id "u1" 0 10 = .ok (r, g)) ∧
    get_user_decisions_from_service matchesEnvA "u1"
      = .ok [{ match_id := some "m1", user_id := some "u1"
             , decision := some "accept", decided_at := some "t1" }] := by
  have h := claim_C3_partial_failures_swallowed poolsEnvA matchesEnvA id "u1" 0 10 updA 200
    membersA (fun l => List.Perm.refl l) rfl (by decide) rfl rfl ?hval
  case hval =>
    intro raw hraw
    have hlist : (posted_payloads updA.pool_id "u1"
        (random_sample 0 (other_members_filter "u1" membersA)
          (min 10 (other_members_filter "u1" membersA).length))).filterMap
          (create_match matchesEnvA)
        = [RawResp.obj (mkRawMatch { pool_id := "p1", user1_id := "u1", user2_id := "u2" })] := rfl
    rw [hlist] at hraw
    rw [List.mem_singleton] at hraw
    subst hraw
    exact ⟨_, rfl⟩
  refine ⟨h.1, ?_⟩
  have h2 := h.2 200 [{ match_id := some "m1" }, { match_id := some "m2" }] rfl rfl
  exact h2

end UserMatch
